import Mathlib

/-!
Verification development for MAD.NET (`src/MAD.h`): a managed wrapper that
exposes the libmad MP3 decoder's frame-by-frame decode and synthesis API.
The wrapper's own code (the `Error` enumeration, the `Decoder` class with its
properties and forwarding methods) is embedded directly from `src/MAD.h`.
The engine functions the wrapper forwards to (`mad_frame_decode`,
`mad_synth_frame`, `MAD_RECOVERABLE`, `mad_stream_errorstr`, the
`mad_stream`/`mad_frame`/`mad_synth` blocks) are not part of the repository;
each is modelled from the specification and marked as such in its doc
comment.
-/

namespace MAD

/-- The `Error` enumeration of `src/MAD.h` (lines 9-32): `None` plus the 21
decoding error codes, including the `BadStero` spelling of the source. -/
inductive Error where
  | None
  | BufferLength
  | BufferData
  | Memory
  | LostSync
  | BadLayer
  | BadBitRate
  | BadSampleRate
  | BadEmphasis
  | BadCRC
  | BadBitAlloc
  | BadScaleFactor
  | BadMode
  | BadFrameLength
  | BadBigValues
  | BadBlockType
  | BadSCFSI
  | BadData
  | BadAudioLength
  | BadHuffmanTable
  | BadHuffmanData
  | BadStero
  deriving DecidableEq, Repr, Fintype

/-- The numeric value each `Error` member is declared with in `src/MAD.h`
(lines 10-31), written with the same hexadecimal literals. -/
def Error.code : Error → Nat
  | .None => 0x0000
  | .BufferLength => 0x0001
  | .BufferData => 0x0002
  | .Memory => 0x0031
  | .LostSync => 0x0101
  | .BadLayer => 0x0102
  | .BadBitRate => 0x0103
  | .BadSampleRate => 0x0104
  | .BadEmphasis => 0x0105
  | .BadCRC => 0x0201
  | .BadBitAlloc => 0x0211
  | .BadScaleFactor => 0x0221
  | .BadMode => 0x0222
  | .BadFrameLength => 0x0231
  | .BadBigValues => 0x0232
  | .BadBlockType => 0x0233
  | .BadSCFSI => 0x0234
  | .BadData => 0x0235
  | .BadAudioLength => 0x0236
  | .BadHuffmanTable => 0x0237
  | .BadHuffmanData => 0x0238
  | .BadStero => 0x0239

/-- Every member of the `Error` enumeration, in declaration order. -/
def Error.all : List Error :=
  [.None, .BufferLength, .BufferData, .Memory, .LostSync, .BadLayer,
   .BadBitRate, .BadSampleRate, .BadEmphasis, .BadCRC, .BadBitAlloc,
   .BadScaleFactor, .BadMode, .BadFrameLength, .BadBigValues, .BadBlockType,
   .BadSCFSI, .BadData, .BadAudioLength, .BadHuffmanTable, .BadHuffmanData,
   .BadStero]

/-- Modelled from the spec: the engine's fixed numeric error taxonomy (the
`mad_error` value of each engine error condition). The spec requires that
"this mapping must be reproduced verbatim" by the wrapper's enumeration, so
the engine values are the authority the wrapper's `Error.code` is checked
against. -/
def mad_error_code : Error → Nat
  | .None => 0x0000
  | .BufferLength => 0x0001
  | .BufferData => 0x0002
  | .Memory => 0x0031
  | .LostSync => 0x0101
  | .BadLayer => 0x0102
  | .BadBitRate => 0x0103
  | .BadSampleRate => 0x0104
  | .BadEmphasis => 0x0105
  | .BadCRC => 0x0201
  | .BadBitAlloc => 0x0211
  | .BadScaleFactor => 0x0221
  | .BadMode => 0x0222
  | .BadFrameLength => 0x0231
  | .BadBigValues => 0x0232
  | .BadBlockType => 0x0233
  | .BadSCFSI => 0x0234
  | .BadData => 0x0235
  | .BadAudioLength => 0x0236
  | .BadHuffmanTable => 0x0237
  | .BadHuffmanData => 0x0238
  | .BadStero => 0x0239

/-- Modelled from the spec: the stream-content malformation errors, the
recoverable tier of the two-tier taxonomy ("fatal (buffer invalid,
out-of-memory) vs recoverable (any stream-content malformation: bad header
fields, bad Huffman data, bad CRC, sync loss)"). The fatal conditions are
buffer-length, buffer-data and memory; no-error is not a malformation. -/
def malformationErrors : List Error :=
  [.LostSync, .BadLayer, .BadBitRate, .BadSampleRate, .BadEmphasis, .BadCRC,
   .BadBitAlloc, .BadScaleFactor, .BadMode, .BadFrameLength, .BadBigValues,
   .BadBlockType, .BadSCFSI, .BadData, .BadAudioLength, .BadHuffmanTable,
   .BadHuffmanData, .BadStero]

/-- Modelled from the spec: the engine's `MAD_RECOVERABLE` predicate on a
stored `mad_error` value, "each with a fixed recoverability flag": true
exactly for the codes of the stream-content malformation errors. -/
def MAD_RECOVERABLE (n : Nat) : Bool :=
  (malformationErrors.map mad_error_code).contains n

/-- Modelled from the spec: the fixed human-readable message associated with
each engine error code ("each with a fixed recoverability flag and message
string"). The spec fixes that the message is a function of the code alone;
the wording is descriptive. -/
def Error.message : Error → String
  | .None => "no error"
  | .BufferLength => "input buffer too small or exhausted"
  | .BufferData => "invalid input buffer pointer"
  | .Memory => "not enough memory"
  | .LostSync => "lost synchronization"
  | .BadLayer => "reserved header layer value"
  | .BadBitRate => "forbidden bitrate value"
  | .BadSampleRate => "reserved sample frequency value"
  | .BadEmphasis => "reserved emphasis value"
  | .BadCRC => "CRC check failed"
  | .BadBitAlloc => "forbidden bit allocation value"
  | .BadScaleFactor => "bad scalefactor index"
  | .BadMode => "bad bitrate and mode combination"
  | .BadFrameLength => "bad frame length"
  | .BadBigValues => "bad big values count"
  | .BadBlockType => "reserved block type"
  | .BadSCFSI => "bad scalefactor selection info"
  | .BadData => "bad main data begin pointer"
  | .BadAudioLength => "bad audio data length"
  | .BadHuffmanTable => "bad Huffman table select"
  | .BadHuffmanData => "Huffman data overrun"
  | .BadStero => "incompatible block type for joint stereo"

/-- The `Error` member whose declared numeric value is `n`, when one exists:
this is how a `static_cast` of a stored numeric error back to the managed
enumeration is observed (the cast result compares equal to exactly the
member with that value). -/
def Error.ofCode (n : Nat) : Option Error :=
  Error.all.find? (fun e => Error.code e == n)

/-- Modelled from the spec: the engine's `mad_stream_errorstr`, reading the
stream's current error code and returning its fixed message string; for a
value that is no engine code it returns an empty message. -/
def mad_stream_errorstr (n : Nat) : String :=
  match Error.ofCode n with
  | some e => e.message
  | none => ""

/-- Modelled from the spec: the engine's `mad_stream` state block as the
wrapper uses it — "owns the input buffer cursor ..., the count of unconsumed
bytes, and the most recent error code". The buffer is the caller-supplied
byte region, `this_frame`/`next_frame` are the frame-boundary cursors
(offsets into the buffer) and `error` is the stored `mad_error` value. -/
structure mad_stream where
  buffer : List Nat
  this_frame : Nat
  next_frame : Nat
  error : Nat
  deriving DecidableEq, Repr

/-- Modelled from the spec: a parsed and validated frame header
("layer/bitrate/sample-rate/mode/emphasis fields"). -/
structure Header where
  layer : Nat
  bitrateIndex : Nat
  samplerateIndex : Nat
  mode : Nat
  emphasis : Nat
  deriving DecidableEq, Repr

/-- Modelled from the spec: the engine's `mad_frame` block — "owns decoded
header fields (layer, bitrate, sample rate, channel mode, emphasis), the side
information, and the dequantized/reconstructed subband sample matrix for the
current frame only". `sbsample` holds, per channel, the 36 subband sample
sets of 32 samples each of the covered layer (36 x 32 = 1152 samples per
channel). -/
structure mad_frame where
  samplerate : Nat
  channels : Nat
  sbsample : List (List (List Int))
  deriving DecidableEq, Repr

/-- Modelled from the spec: the engine's `mad_synth` block — "owns the
polyphase filter's persistent history buffers (one ring per channel) and the
most recently produced PCM sample block". `filter` is the per-channel
history, `phase` the round-robin write position, and the `pcm` fields are the
sample rate, channel count and per-channel samples of the last synthesized
frame. -/
structure mad_synth where
  filter : List (List Int)
  phase : Nat
  pcm_samplerate : Nat
  pcm_channels : Nat
  pcm_samples : List (List Int)
  deriving DecidableEq, Repr

/-- Modelled from the spec: `mad_stream_init` — a fresh stream block: empty
buffer, cursors at the start, no error. -/
def mad_stream_init : mad_stream :=
  { buffer := [], this_frame := 0, next_frame := 0, error := 0 }

/-- Modelled from the spec: `mad_frame_init` — a fresh frame block with no
decoded data. -/
def mad_frame_init : mad_frame :=
  { samplerate := 0, channels := 0, sbsample := [] }

/-- Modelled from the spec: `mad_synth_init` — a fresh synth block: empty
filter history, phase zero, no PCM produced yet. -/
def mad_synth_init : mad_synth :=
  { filter := [], phase := 0, pcm_samplerate := 0, pcm_channels := 0,
    pcm_samples := [] }

/-- Modelled from the spec: `mad_stream_buffer` — installs a fixed input
region and resets the frame cursors to its start ("installs a fixed input
region; length in bytes"). -/
def mad_stream_buffer (s : mad_stream) (data : List Nat) : mad_stream :=
  { s with buffer := data, this_frame := 0, next_frame := 0 }

/-- Modelled from the spec (FrameHeaderParser): "locateSync(stream) ->
frameStart | LostSync; scans forward for the 12/11-bit sync pattern defined
by the format, skipping invalid bytes". The sync pattern is a byte of all
ones followed by a byte whose top three bits are ones; `p` is the offset of
the head of the list in the whole buffer. -/
def locateSyncFrom : List Nat → Nat → Option Nat
  | b0 :: b1 :: rest, p =>
    if b0 = 0xFF ∧ 0xE0 ≤ b1 then some p else locateSyncFrom (b1 :: rest) (p + 1)
  | _, _ => Option.none

/-- Modelled from the spec (FrameHeaderParser): "parseHeader(bits) -> Header
| BadLayer | BadBitRate | BadSampleRate | BadEmphasis: each field is looked
up in a fixed legal-value table; any reserved/invalid combination signals the
corresponding error". `b1 b2 b3` are the header bytes after the sync byte;
the reserved layer value, the forbidden bitrate index, the reserved
sample-rate index and the reserved emphasis value are rejected with the
corresponding engine error code. -/
def parseHeader (b1 b2 b3 : Nat) : Except Nat Header :=
  let layer := (b1 >>> 1) % 4
  let bri := (b2 >>> 4) % 16
  let sri := (b2 >>> 2) % 4
  let mode := (b3 >>> 6) % 4
  let emph := b3 % 4
  if layer = 0 then .error (mad_error_code .BadLayer)
  else if bri = 15 then .error (mad_error_code .BadBitRate)
  else if sri = 3 then .error (mad_error_code .BadSampleRate)
  else if emph = 2 then .error (mad_error_code .BadEmphasis)
  else .ok { layer := layer, bitrateIndex := bri, samplerateIndex := sri,
             mode := mode, emphasis := emph }

/-- Modelled from the spec: the legal sample-rate table of the covered
format, indexed by the header's sample-rate index. -/
def samplerateTable : List Nat := [44100, 48000, 32000]

/-- Modelled from the spec: the channel count determined by the header's
channel mode — one channel for the single-channel mode, two otherwise
("dual independent channels; intensity-stereo ...; mid/side matrixing"). -/
def channelsOfMode (mode : Nat) : Nat := if mode = 3 then 1 else 2

/-- Modelled from the spec: the byte length of a located frame, a fixed
function of the validated header fields, used to advance `next_frame` past
the frame ("advancing by (nextFrameOffset - bufferStart)"). -/
def frameByteLength (h : Header) : Nat := 4 + 144 * h.bitrateIndex

/-- Modelled from the spec (Reconstructor): the dequantized and reconstructed
subband sample matrix of a successfully decoded frame — per channel, 36
subband sample sets of 32 samples each, derived from the frame's payload
bytes starting at offset `off` (bytes past the end of the buffer read as
zero). -/
def frameSubband (buf : List Nat) (off : Nat) (channels : Nat) :
    List (List (List Int)) :=
  (List.range channels).map fun c =>
    (List.range 36).map fun s =>
      (List.range 32).map fun k =>
        (Int.ofNat (buf.getD (off + 1152 * c + 32 * s + k) 0))

/-- Modelled from the spec: the engine's `mad_frame_decode` — "decodeFrame()
-> bool: true on success; false sets the current error code". The model
realizes the FrameHeaderParser stage (sync location, header validation
against the legal-value tables) and represents the deeper stages by the
reconstructed subband matrix; it returns 0 and the decoded frame with the
cursors advanced on success, and -1 with the causing error code stored in
the stream on failure. -/
def mad_frame_decode (f : mad_frame) (s : mad_stream) :
    Int × mad_frame × mad_stream :=
  match locateSyncFrom (s.buffer.drop s.next_frame) s.next_frame with
  | Option.none => (-1, f, { s with error := mad_error_code .LostSync })
  | some p =>
    match parseHeader (s.buffer.getD (p + 1) 0) (s.buffer.getD (p + 2) 0)
        (s.buffer.getD (p + 3) 0) with
    | .error c => (-1, f, { s with this_frame := p, error := c })
    | .ok h =>
      let ch := channelsOfMode h.mode
      (0,
       { samplerate := samplerateTable.getD h.samplerateIndex 0,
         channels := ch,
         sbsample := frameSubband s.buffer (p + 4) ch },
       { s with this_frame := p, next_frame := p + frameByteLength h })

/-- The error code that makes a decode attempt on stream `s` fail, when one
does; `none` when the attempt succeeds. This names the cause of failure the
engine stores in the stream. -/
def decodeFailure (s : mad_stream) : Option Nat :=
  match locateSyncFrom (s.buffer.drop s.next_frame) s.next_frame with
  | Option.none => some (mad_error_code .LostSync)
  | some p =>
    match parseHeader (s.buffer.getD (p + 1) 0) (s.buffer.getD (p + 2) 0)
        (s.buffer.getD (p + 3) 0) with
    | .error c => some c
    | .ok _ => Option.none

/-- Modelled from the spec (SynthesisFilterbank): one channel's synthesis —
"producing 32 time-domain samples per subband-sample-set, accumulating into
the persistent per-channel history" with overlap-add: each subband sample
set is added to the history the previous set left and then overwrites it.
Returns the channel's PCM samples and the history carried forward. -/
def synthChannel : List Int → List (List Int) → List Int × List Int
  | hist, [] => ([], hist)
  | hist, sset :: rest =>
    let chunk := (List.range 32).map fun k => sset.getD k 0 + hist.getD k 0
    let r := synthChannel sset rest
    (chunk ++ r.1, r.2)

/-- Modelled from the spec: the engine's `mad_synth_frame` — applies the
polyphase filterbank to the decoded frame's subband samples, overwrites the
synth's PCM block (sample rate, channel count, per-channel samples) and
updates the persistent filter state: per-channel history, and the
round-robin write phase which advances by the 36 sample sets processed,
modulo the ring size 16. -/
def mad_synth_frame (sy : mad_synth) (f : mad_frame) : mad_synth :=
  let results := (List.range f.channels).map fun c =>
      synthChannel (sy.filter.getD c []) (f.sbsample.getD c [])
  { filter := results.map Prod.snd,
    phase := (sy.phase + 36) % 16,
    pcm_samplerate := f.samplerate,
    pcm_channels := f.channels,
    pcm_samples := results.map Prod.fst }

/-- The managed `Decoder` object of `src/MAD.h` (lines 37-165): it holds
pointers to the three engine state blocks `_Stream`, `_Frame`, `_Synth`. -/
structure Decoder where
  _Stream : mad_stream
  _Frame : mad_frame
  _Synth : mad_synth
  deriving DecidableEq, Repr

/-- `Decoder.Initialize` (src/MAD.h lines 42-49): allocates the three engine
state blocks and runs `mad_stream_init`, `mad_frame_init`, `mad_synth_init`
on them; the resulting decoder state. -/
def Decoder.Initialize : Decoder :=
  { _Stream := mad_stream_init, _Frame := mad_frame_init,
    _Synth := mad_synth_init }

/-- `Decoder.SetInput` (src/MAD.h lines 63-65): forwards to
`mad_stream_buffer` on the stream block. -/
def Decoder.SetInput (d : Decoder) (data : List Nat) : Decoder :=
  { d with _Stream := mad_stream_buffer d._Stream data }

/-- `Decoder.FrameSampleCount` (src/MAD.h line 70):
`literal int FrameSampleCount = 1152`. -/
def Decoder.FrameSampleCount : Nat := 1152

/-- The `CurrentFrame` property (src/MAD.h lines 75-79): the location of the
current frame in the input buffer, read from `_Stream->this_frame`. -/
def Decoder.CurrentFrame (d : Decoder) : Nat := d._Stream.this_frame

/-- The `NextFrame` property (src/MAD.h lines 84-88): the location of the
next frame in the input buffer, read from `_Stream->next_frame`. -/
def Decoder.NextFrame (d : Decoder) : Nat := d._Stream.next_frame

/-- The `SampleRate` property (src/MAD.h lines 93-97): read from
`_Synth->pcm.samplerate`. -/
def Decoder.SampleRate (d : Decoder) : Nat := d._Synth.pcm_samplerate

/-- The `Channels` property (src/MAD.h lines 102-106): read from
`_Synth->pcm.channels`. -/
def Decoder.Channels (d : Decoder) : Nat := d._Synth.pcm_channels

/-- The `Output` property (src/MAD.h lines 111-115): the PCM output of the
last synthesized frame, read from `_Synth->pcm.samples`. -/
def Decoder.Output (d : Decoder) : List (List Int) := d._Synth.pcm_samples

/-- The getter of the `Error` property (src/MAD.h lines 121-123): the stored
`_Stream->error` value cast back to the managed enumeration; the member it
equals is the one whose declared value matches the stored code. -/
def Decoder.ErrorGet (d : Decoder) : Option Error :=
  Error.ofCode d._Stream.error

/-- The setter of the `Error` property (src/MAD.h lines 124-126): stores the
member's numeric value into `_Stream->error` (`static_cast<mad_error>`). -/
def Decoder.ErrorSet (d : Decoder) (e : Error) : Decoder :=
  { d with _Stream := { d._Stream with error := Error.code e } }

/-- The `ErrorRecoverable` property (src/MAD.h lines 132-136):
`MAD_RECOVERABLE(this->_Stream->error)`. -/
def Decoder.ErrorRecoverable (d : Decoder) : Bool :=
  MAD_RECOVERABLE d._Stream.error

/-- The `ErrorMessage` property (src/MAD.h lines 141-145): the string built
from `mad_stream_errorstr(this->_Stream)`. -/
def Decoder.ErrorMessage (d : Decoder) : String :=
  mad_stream_errorstr d._Stream.error

/-- `Decoder.DecodeFrame` (src/MAD.h lines 150-152):
`return mad_frame_decode(this->_Frame, this->_Stream) != -1;` — the boolean
result together with the decoder after the engine call mutated the frame and
stream blocks. -/
def Decoder.DecodeFrame (d : Decoder) : Bool × Decoder :=
  let r := mad_frame_decode d._Frame d._Stream
  (r.1 != -1, { d with _Frame := r.2.1, _Stream := r.2.2 })

/-- `Decoder.SynthFrame` (src/MAD.h lines 157-159):
`mad_synth_frame(this->_Synth, this->_Frame);` — only the synth block is
passed for mutation; the frame is read. -/
def Decoder.SynthFrame (d : Decoder) : Decoder :=
  { d with _Synth := mad_synth_frame d._Synth d._Frame }

/-- Resource accounting for one decoder session: whether each of the three
heap-allocated engine state blocks is held, and whether each block's
engine-internal resources (acquired by the `mad_*_init` calls, modelled from
the spec: "scoped acquisition of the three engine state blocks") are held. -/
structure SessionResources where
  streamBlock : Bool
  frameBlock : Bool
  synthBlock : Bool
  streamInternal : Bool
  frameInternal : Bool
  synthInternal : Bool
  deriving DecidableEq, Repr

/-- The resources held after `Decoder.Initialize` (src/MAD.h lines 42-49):
`new mad_stream()`, `new mad_frame()`, `new mad_synth()` allocate the three
blocks, and `mad_stream_init`, `mad_frame_init`, `mad_synth_init` acquire
each block's engine-internal state. -/
def initializeResources : SessionResources :=
  { streamBlock := true, frameBlock := true, synthBlock := true,
    streamInternal := true, frameInternal := true, synthInternal := true }

/-- The resources held after `Decoder.Terminate` (src/MAD.h lines 54-58): the
three `mad_*_finish` calls release each block's engine-internal resources,
and no `delete` is executed on `_Stream`, `_Frame` or `_Synth`, so the heap
blocks allocated by `Initialize` stay held. -/
def terminateResources (r : SessionResources) : SessionResources :=
  { r with streamInternal := false, frameInternal := false,
           synthInternal := false }

/-- Whether any resource of the session is still held. -/
def SessionResources.anyHeld (r : SessionResources) : Bool :=
  r.streamBlock || r.frameBlock || r.synthBlock ||
  r.streamInternal || r.frameInternal || r.synthInternal

/-- A freshly initialized decoder with an empty input buffer: every decode
attempt on it loses synchronization. -/
def D0 : Decoder := Decoder.Initialize

/-- An initialized decoder whose input buffer holds one well-formed frame
header (sync byte, legal layer, bitrate index 9, sample-rate index 0, stereo
mode, no emphasis) and no payload bytes. -/
def W3 : Decoder :=
  { _Stream := mad_stream_buffer mad_stream_init [0xFF, 0xFB, 0x90, 0x00],
    _Frame := mad_frame_init, _Synth := mad_synth_init }

/-- A decoder session holding a decoded frame whose 36 subband sample sets
are all the unit impulse (a one followed by zeros), over a fresh synth
state: the shape `mad_frame_decode` produces for a single-channel frame. -/
def D8 : Decoder :=
  { _Stream := mad_stream_init,
    _Frame := { samplerate := 44100, channels := 1,
                sbsample := [List.replicate 36 ((1 : Int) :: List.replicate 31 0)] },
    _Synth := mad_synth_init }

theorem synthChannel_pcm_length (sets : List (List Int)) :
    ∀ hist, (synthChannel hist sets).1.length = 32 * sets.length := by
  induction sets with
  | nil => intro hist; rfl
  | cons s rest ih =>
    intro hist
    simp only [synthChannel, List.length_append, List.length_map,
      List.length_range, ih s, List.length_cons]
    omega

theorem frameSubband_length (buf : List Nat) (off n : Nat) :
    (frameSubband buf off n).length = n := by
  simp [frameSubband]

theorem frameSubband_mem_length (buf : List Nat) (off n : Nat) :
    ∀ l ∈ frameSubband buf off n, l.length = 36 := by
  intro l hl
  simp only [frameSubband, List.mem_map] at hl
  obtain ⟨c, _, rfl⟩ := hl
  simp

theorem mad_synth_frame_channel_length (sy : mad_synth) (f : mad_frame)
    (h1 : f.sbsample.length = f.channels)
    (h2 : ∀ l ∈ f.sbsample, l.length = 36) :
    ∀ ch ∈ (mad_synth_frame sy f).pcm_samples, ch.length = 1152 := by
  intro ch hch
  simp only [mad_synth_frame, List.map_map, List.mem_map, List.mem_range,
    Function.comp] at hch
  obtain ⟨c, hc, rfl⟩ := hch
  rw [synthChannel_pcm_length]
  have hlt : c < f.sbsample.length := h1 ▸ hc
  have hm : f.sbsample.getD c [] ∈ f.sbsample := by
    rw [List.getD_eq_getElem?_getD, List.getElem?_eq_getElem hlt,
      Option.getD_some]
    exact List.getElem_mem hlt
  rw [h2 _ hm]

/-- C1: for every decoder session state, `DecodeFrame` returns true exactly
when the engine's frame decode succeeds (no failure cause exists for the
current stream), and when it returns false the session's current error code
holds the error that caused the failure. -/
theorem C1_decodeFrame_result (d : Decoder) :
    ((d.DecodeFrame).1 = true ↔ decodeFailure d._Stream = Option.none) ∧
    (∀ c, decodeFailure d._Stream = some c →
      (d.DecodeFrame).1 = false ∧ (d.DecodeFrame).2._Stream.error = c) := by
  cases hsync : locateSyncFrom (d._Stream.buffer.drop d._Stream.next_frame)
      d._Stream.next_frame with
  | none =>
    simp only [Decoder.DecodeFrame, mad_frame_decode, decodeFailure, hsync]
    simp
  | some p =>
    cases hph : parseHeader (d._Stream.buffer.getD (p + 1) 0)
        (d._Stream.buffer.getD (p + 2) 0) (d._Stream.buffer.getD (p + 3) 0) with
    | error c =>
      simp only [Decoder.DecodeFrame, mad_frame_decode, decodeFailure, hsync,
        hph]
      simp
    | ok h =>
      simp only [Decoder.DecodeFrame, mad_frame_decode, decodeFailure, hsync,
        hph]
      simp

/-- Witness for C1: on a freshly initialized decoder with no input, the
decode attempt fails with lost synchronization and `DecodeFrame` reports it. -/
theorem C1_decodeFrame_result_witness :
    (D0.DecodeFrame).1 = false ∧
    (D0.DecodeFrame).2._Stream.error = mad_error_code Error.LostSync :=
  (C1_decodeFrame_result D0).2 (mad_error_code Error.LostSync) (by decide)

/-- C2: `SynthFrame` returns no value and updates only the synth block: the
`SampleRate`, `Channels` and `Output` observables take the engine's
synthesized values, while `CurrentFrame`, `NextFrame`, the whole stream
block (in particular the current error code) and the frame block are left
unchanged. -/
theorem C2_synthFrame_effects (d : Decoder) :
    d.SynthFrame.CurrentFrame = d.CurrentFrame ∧
    d.SynthFrame.NextFrame = d.NextFrame ∧
    d.SynthFrame._Stream.error = d._Stream.error ∧
    d.SynthFrame._Stream = d._Stream ∧
    d.SynthFrame._Frame = d._Frame ∧
    d.SynthFrame.SampleRate = d._Frame.samplerate ∧
    d.SynthFrame.Channels = d._Frame.channels ∧
    d.SynthFrame.Output = (mad_synth_frame d._Synth d._Frame).pcm_samples :=
  ⟨rfl, rfl, rfl, rfl, rfl, rfl, rfl, rfl⟩

/-- C3: the constant `FrameSampleCount` equals 1152, and whenever
`DecodeFrame` succeeds, the following `SynthFrame` yields exactly 1152 PCM
samples in every channel of the output. -/
theorem C3_frameSampleCount_output_length :
    Decoder.FrameSampleCount = 1152 ∧
    ∀ d : Decoder, (d.DecodeFrame).1 = true →
      ∀ ch ∈ ((d.DecodeFrame).2.SynthFrame).Output,
        ch.length = Decoder.FrameSampleCount := by
  refine ⟨rfl, ?_⟩
  intro d hd ch hch
  cases hsync : locateSyncFrom (d._Stream.buffer.drop d._Stream.next_frame)
      d._Stream.next_frame with
  | none =>
    simp only [Decoder.DecodeFrame, mad_frame_decode, hsync] at hd
    exact absurd hd (by decide)
  | some p =>
    cases hph : parseHeader (d._Stream.buffer.getD (p + 1) 0)
        (d._Stream.buffer.getD (p + 2) 0) (d._Stream.buffer.getD (p + 3) 0) with
    | error c =>
      simp only [Decoder.DecodeFrame, mad_frame_decode, hsync, hph] at hd
      exact absurd hd (by decide)
    | ok h =>
      have hframe : (d.DecodeFrame).2._Frame =
          { samplerate := samplerateTable.getD h.samplerateIndex 0,
            channels := channelsOfMode h.mode,
            sbsample := frameSubband d._Stream.buffer (p + 4)
              (channelsOfMode h.mode) } := by
        simp only [Decoder.DecodeFrame, mad_frame_decode, hsync, hph]
      have hout : ((d.DecodeFrame).2.SynthFrame).Output =
          (mad_synth_frame (d.DecodeFrame).2._Synth
            (d.DecodeFrame).2._Frame).pcm_samples := rfl
      rw [hout] at hch
      have hlen : (d.DecodeFrame).2._Frame.sbsample.length =
          (d.DecodeFrame).2._Frame.channels := by
        rw [hframe]; exact frameSubband_length _ _ _
      have h36 : ∀ l ∈ (d.DecodeFrame).2._Frame.sbsample, l.length = 36 := by
        rw [hframe]; exact frameSubband_mem_length _ _ _
      exact mad_synth_frame_channel_length _ _ hlen h36 ch hch

set_option maxRecDepth 100000 in
/-- Witness for C3: the one-frame input of `W3` decodes successfully and the
first output channel of the following synthesis holds exactly
`FrameSampleCount` samples. -/
theorem C3_frameSampleCount_output_length_witness :
    (W3.DecodeFrame).1 = true ∧
    (((W3.DecodeFrame).2.SynthFrame).Output.getD 0 []).length =
      Decoder.FrameSampleCount :=
  ⟨by decide, C3_frameSampleCount_output_length.2 W3 (by decide) _ (by decide)⟩

/-- C4: `ErrorRecoverable` is true exactly when the current error code is one
of the stream-content malformation errors, and false for the fatal errors
buffer-length, buffer-data and memory. -/
theorem C4_errorRecoverable_classification (d : Decoder) (e : Error)
    (h : d._Stream.error = Error.code e) :
    (d.ErrorRecoverable = true ↔
      e ∈ ([.LostSync, .BadLayer, .BadBitRate, .BadSampleRate, .BadEmphasis,
            .BadCRC, .BadBitAlloc, .BadScaleFactor, .BadMode, .BadFrameLength,
            .BadBigValues, .BadBlockType, .BadSCFSI, .BadData,
            .BadAudioLength, .BadHuffmanTable, .BadHuffmanData,
            .BadStero] : List Error)) ∧
    ((e = .BufferLength ∨ e = .BufferData ∨ e = .Memory) →
      d.ErrorRecoverable = false) := by
  simp only [Decoder.ErrorRecoverable, h]
  cases e <;> decide

/-- Witness for C4: a session whose error was set to bad-CRC classifies as
recoverable, and the fatal-error clause holds vacuously there. -/
theorem C4_errorRecoverable_classification_witness :
    ((D0.ErrorSet Error.BadCRC).ErrorRecoverable = true ↔
      Error.BadCRC ∈ ([.LostSync, .BadLayer, .BadBitRate, .BadSampleRate,
        .BadEmphasis, .BadCRC, .BadBitAlloc, .BadScaleFactor, .BadMode,
        .BadFrameLength, .BadBigValues, .BadBlockType, .BadSCFSI, .BadData,
        .BadAudioLength, .BadHuffmanTable, .BadHuffmanData,
        .BadStero] : List Error)) ∧
    ((Error.BadCRC = Error.BufferLength ∨ Error.BadCRC = Error.BufferData ∨
        Error.BadCRC = Error.Memory) →
      (D0.ErrorSet Error.BadCRC).ErrorRecoverable = false) :=
  C4_errorRecoverable_classification (D0.ErrorSet Error.BadCRC) Error.BadCRC
    (by decide)

/-- C5: the wrapper's `Error` enumeration reproduces the engine's fixed
numeric taxonomy verbatim — each member's declared value equals the engine's
value for that error, distinct members have distinct values, and the
enumeration consists of exactly the 22 members (`None` plus 21 codes). -/
theorem C5_error_enum_verbatim :
    (∀ e : Error, Error.code e = mad_error_code e) ∧
    (∀ a b : Error, Error.code a = Error.code b → a = b) ∧
    (∀ e : Error, e ∈ Error.all) ∧
    Error.all.length = 22 ∧ Error.all.Nodup := by decide

/-- C6: the `Error` property is gettable and settable: setting it to `e` and
reading it back yields exactly the member `e` (in particular setting `None`
clears the error), and no other observable of the session changes — the
frame and synth blocks, the frame cursors and the input buffer are
untouched. -/
theorem C6_error_set_get_roundtrip (d : Decoder) (e : Error) :
    (d.ErrorSet e).ErrorGet = some e ∧
    (d.ErrorSet e)._Frame = d._Frame ∧
    (d.ErrorSet e)._Synth = d._Synth ∧
    (d.ErrorSet e).CurrentFrame = d.CurrentFrame ∧
    (d.ErrorSet e).NextFrame = d.NextFrame ∧
    (d.ErrorSet e)._Stream.buffer = d._Stream.buffer := by
  refine ⟨?_, rfl, rfl, rfl, rfl, rfl⟩
  cases e <;> rfl

/-- C7: the code leaks — `Initialize` allocates the three engine state blocks
and acquires their engine-internal state, `Terminate` releases only the
engine-internal resources (the three `mad_*_finish` calls) and never frees
the heap blocks, so resources of the session are still held after
`Terminate` returns. -/
theorem C7_terminate_leaves_blocks_held :
    initializeResources.streamBlock = true ∧
    initializeResources.frameBlock = true ∧
    initializeResources.synthBlock = true ∧
    initializeResources.streamInternal = true ∧
    initializeResources.frameInternal = true ∧
    initializeResources.synthInternal = true ∧
    (terminateResources initializeResources).streamInternal = false ∧
    (terminateResources initializeResources).frameInternal = false ∧
    (terminateResources initializeResources).synthInternal = false ∧
    (terminateResources initializeResources).streamBlock = true ∧
    (terminateResources initializeResources).frameBlock = true ∧
    (terminateResources initializeResources).synthBlock = true ∧
    (terminateResources initializeResources).anyHeld = true := by decide

set_option maxRecDepth 100000 in
/-- Counterexample for C8: on the session `D8`, a second `SynthFrame` without
an intervening `DecodeFrame` does not reproduce the first call's PCM output
and does not leave the synth state as a single call left it. -/
theorem C8_synth_twice_counterexample :
    ¬ (D8.SynthFrame.SynthFrame.Output = D8.SynthFrame.Output ∧
       D8.SynthFrame.SynthFrame._Synth = D8.SynthFrame._Synth) := by decide

/-- C8 as amended: `SynthFrame` is not idempotent — each call re-applies the
filterbank to the current frame, overlap-adding against the history the
previous call left and advancing the round-robin phase by 36 modulo 16, so a
second call without an intervening `DecodeFrame` generally yields different
PCM and carries a different filter state to the next frame; one synthesis
per decode is a caller contract the session does not enforce. -/
theorem C8_synth_twice_amended (d : Decoder) :
    d.SynthFrame._Frame = d._Frame ∧
    d.SynthFrame.SynthFrame._Synth =
      mad_synth_frame (mad_synth_frame d._Synth d._Frame) d._Frame ∧
    d.SynthFrame._Synth.phase = (d._Synth.phase + 36) % 16 ∧
    d.SynthFrame.SynthFrame._Synth.phase = (d._Synth.phase + 72) % 16 := by
  refine ⟨rfl, rfl, rfl, ?_⟩
  show ((d._Synth.phase + 36) % 16 + 36) % 16 = (d._Synth.phase + 72) % 16
  omega

/-- C9: the three error observables are all derived from the single stored
error code: after setting the `Error` property to `e`, reading it yields
`e`, `ErrorRecoverable` yields the fixed recoverability classification of
`e`, and `ErrorMessage` yields the fixed message string associated with
`e`. -/
theorem C9_error_observables_single_source (d : Decoder) (e : Error) :
    (d.ErrorSet e).ErrorGet = some e ∧
    (d.ErrorSet e).ErrorRecoverable = MAD_RECOVERABLE (Error.code e) ∧
    (d.ErrorSet e).ErrorRecoverable = malformationErrors.contains e ∧
    (d.ErrorSet e).ErrorMessage = Error.message e := by
  refine ⟨?_, rfl, ?_, ?_⟩ <;> cases e <;> rfl

/-- C10: when the current error code is `None`, `ErrorRecoverable` returns
false. -/
theorem C10_none_not_recoverable (d : Decoder)
    (h : d._Stream.error = Error.code Error.None) :
    d.ErrorRecoverable = false := by
  simp only [Decoder.ErrorRecoverable, h]
  decide

/-- Witness for C10: a freshly initialized decoder stores the code of `None`
and classifies as not recoverable. -/
theorem C10_none_not_recoverable_witness :
    D0._Stream.error = Error.code Error.None ∧ D0.ErrorRecoverable = false :=
  ⟨by decide, C10_none_not_recoverable D0 (by decide)⟩

end MAD
